import Mathlib

/-!
# Verification of the Hytale dashboard background worker

A shallow embedding of `src/worker.py` (the log-derived state reconciliation
engine): the event-merge loop of `check_player_events`, the checkpoint
update, the scheduler loop body of `main`, the reverse-scan metric
extraction and null-propagation of `collect_performance` /
`save_performance`, and the retention pruning of `cleanup_old_data`.

SQL tables keyed by a primary key (`players`) are modelled as partial maps
from the key to the row; append-only tables (`player_events`,
`performance`) as lists of rows; the `metadata` singleton as an optional
string.  Timestamps are the ISO-8601 strings the worker stores, compared
lexicographically exactly as SQLite compares TEXT.
-/

namespace HytaleWorker

/-- The two event shapes recognised by `parse_player_events`
(`"type": "join"` / `"type": "leave"`). -/
inductive EventKind where
  | join
  | leave
deriving DecidableEq, Repr

/-- One parsed event dict from `parse_player_events`:
`{timestamp, name, world, uuid, type}`.  `world` is `none` for leave
events (the parser sets `"world": None`). -/
structure Event where
  timestamp : String
  name : String
  world : Option String
  uuid : String
  kind : EventKind
deriving DecidableEq, Repr

/-- A row of the `players` table (the `uuid` primary key is the map key,
so it is not repeated in the row).  Column defaults from the schema:
`online INTEGER DEFAULT 0`, `total_playtime_seconds INTEGER DEFAULT 0`,
nullable `last_login`, `last_logout`, `world`. -/
structure PlayerRecord where
  name : String
  online : Bool
  last_login : Option String
  last_logout : Option String
  world : Option String
  total_playtime_seconds : Nat
deriving DecidableEq, Repr

/-- A row of the append-only `player_events` table (auto-increment id
implicit in the list position). -/
structure EventLogEntry where
  timestamp : String
  uuid : String
  name : String
  event_type : String
  world : Option String
deriving DecidableEq, Repr

/-- A row of the `performance` table.  `cpu_percent`, `ram_mb`,
`ram_percent` are REAL columns, modelled as rationals; nullable columns
are `Option`. -/
structure PerfRow where
  timestamp : String
  tps : Option Nat
  cpu_percent : Option ℚ
  ram_mb : Option ℚ
  ram_percent : Option ℚ
  view_radius : Option Nat
  players_online : Nat
deriving DecidableEq, Repr

/-- The SQLite database state touched by the worker: the `players` table
as a map from `uuid` to its row, the append-only `player_events` and
`performance` tables, and the `metadata` key `last_event_ts`. -/
structure DbState where
  players : String → Option PlayerRecord
  player_events : List EventLogEntry
  performance : List PerfRow
  last_event_ts : Option String

/-- The string stored in the `event_type` column. -/
def eventTypeStr : EventKind → String
  | .join => "join"
  | .leave => "leave"

/-- The `player_events` row inserted for an event (lines 278-281). -/
def toLogEntry (e : Event) : EventLogEntry :=
  { timestamp := e.timestamp
    uuid := e.uuid
    name := e.name
    event_type := eventTypeStr e.kind
    world := e.world }

/-- The `ON CONFLICT(uuid) DO UPDATE` clause of the join upsert
(lines 265-269): overwrite `name`, set `online = 1`, overwrite
`last_login` and `world`; `last_logout` and `total_playtime_seconds`
are untouched. -/
def joinUpdate (p : PlayerRecord) (e : Event) : PlayerRecord :=
  { p with
    name := e.name
    online := true
    last_login := some e.timestamp
    world := e.world }

/-- The row created by the join `INSERT` when no row with this `uuid`
exists (lines 262-264): `online = 1`, `last_login` and `world` from the
event, the remaining columns at their schema defaults
(`last_logout = NULL`, `total_playtime_seconds = 0`). -/
def freshRecord (e : Event) : PlayerRecord :=
  { name := e.name
    online := true
    last_login := some e.timestamp
    last_logout := none
    world := e.world
    total_playtime_seconds := 0 }

/-- Effect of one event on the `players` row of its own `uuid`
(lines 261-275): a join upserts; a leave is
`UPDATE players SET online = 0, last_logout = ? WHERE uuid = ?`,
which touches nothing when no row matches. -/
def applyPlayer (r : Option PlayerRecord) (e : Event) : Option PlayerRecord :=
  match e.kind with
  | .join =>
    match r with
    | none => some (freshRecord e)
    | some p => some (joinUpdate p e)
  | .leave =>
    match r with
    | none => none
    | some p => some { p with online := false, last_logout := some e.timestamp }

/-- One iteration of the per-event merge loop (lines 259-281): update the
`players` table for the event's `uuid` and append one `player_events`
row. -/
def mergeEvent (s : DbState) (e : Event) : DbState :=
  { s with
    players := fun u => if u = e.uuid then applyPlayer (s.players e.uuid) e else s.players u
    player_events := s.player_events ++ [toLogEntry e] }

/-- `check_player_events` (lines 236-291) after log query and parsing:
`queryOk` is `rc == 0` (on failure the function returns with no change);
with zero parsed events it likewise returns with no change; otherwise it
merges every event in extraction (source-line) order and then writes the
`last_event_ts` metadata key to the timestamp of the last event
(`events[-1]["timestamp"]`). -/
def check_player_events (queryOk : Bool) (s : DbState) (events : List Event) : DbState :=
  if !queryOk then s
  else if events.isEmpty then s
  else
    let s1 := events.foldl mergeEvent s
    { s1 with
      last_event_ts :=
        match events.getLast? with
        | some e => some e.timestamp
        | none => s1.last_event_ts }

/-- An empty database: no player rows, no log rows, no checkpoint. -/
def emptyDb : DbState :=
  { players := fun _ => none
    player_events := []
    performance := []
    last_event_ts := none }

/-- A concrete join event (the worked example of the spec). -/
def evJoin1 : Event :=
  { timestamp := "2024-01-01T10:00:00"
    name := "Alice"
    world := some "Overworld"
    uuid := "abc-123"
    kind := .join }

/-- A concrete leave event for the same player. -/
def evLeave1 : Event :=
  { timestamp := "2024-01-01T11:00:00"
    name := "Alice"
    world := none
    uuid := "abc-123"
    kind := .leave }

/-- A database holding exactly the row the join example creates. -/
def oneDb : DbState :=
  { players := fun u =>
      if u = "abc-123" then
        some { name := "Alice"
               online := true
               last_login := some "2024-01-01T10:00:00"
               last_logout := none
               world := some "Overworld"
               total_playtime_seconds := 0 }
      else none
    player_events := []
    performance := []
    last_event_ts := none }

/-- Effect of one event on an existing `players` row (the two `UPDATE`
shapes of the merge loop, which both apply whenever the row exists). -/
def applyRecord (p : PlayerRecord) (e : Event) : PlayerRecord :=
  match e.kind with
  | .join => joinUpdate p e
  | .leave => { p with online := false, last_logout := some e.timestamp }

/-- A batch is leave-covered from a state when every Leave event in it is
applied at a moment its player's row exists (the player either has a row
in the starting state or was created by an earlier Join of the batch). -/
def leavesCovered : DbState → List Event → Bool
  | _, [] => true
  | s, e :: rest =>
    (e.kind != EventKind.leave || (s.players e.uuid).isSome)
      && leavesCovered (mergeEvent s e) rest

/-- Single-player version of `leavesCovered`, over the row of one uuid. -/
def playerCovered : Option PlayerRecord → List Event → Bool
  | _, [] => true
  | r, e :: rest =>
    (e.kind != EventKind.leave || r.isSome) && playerCovered (applyPlayer r e) rest

/-- The last Join event of a list, if any. -/
def lastJoin (l : List Event) : Option Event :=
  (l.filter (fun e => e.kind == EventKind.join)).getLast?

/-- The last Leave event of a list, if any. -/
def lastLeave (l : List Event) : Option Event :=
  (l.filter (fun e => e.kind == EventKind.leave)).getLast?

/-- Normal form of a player's row after a list of its events is applied to
an existing row `p`: each column holds the value written by its last
writer (`name`/`last_login`/`world` by the last Join, `last_logout` by
the last Leave, `online` by the last event of either kind), or `p`'s
value when no event writes it. -/
def nfRecord (p : PlayerRecord) (l : List Event) : PlayerRecord :=
  { name :=
      match lastJoin l with
      | some j => j.name
      | none => p.name
    online :=
      match l.getLast? with
      | some e => e.kind == EventKind.join
      | none => p.online
    last_login :=
      match lastJoin l with
      | some j => some j.timestamp
      | none => p.last_login
    last_logout :=
      match lastLeave l with
      | some j => some j.timestamp
      | none => p.last_logout
    world :=
      match lastJoin l with
      | some j => j.world
      | none => p.world
    total_playtime_seconds := p.total_playtime_seconds }

/-- The counterexample batch for unrestricted merge idempotence: a Leave
for a player with no row, followed by a Join for that player. -/
def evLeaveFirst : Event :=
  { timestamp := "2024-01-02T09:00:00"
    name := "Bob"
    world := none
    uuid := "p-1"
    kind := .leave }

/-- The Join following the uncovered Leave in the counterexample batch. -/
def evJoinSecond : Event :=
  { timestamp := "2024-01-02T08:00:00"
    name := "Bob"
    world := some "Overworld"
    uuid := "p-1"
    kind := .join }

/-- The counterexample batch. -/
def cexBatch : List Event := [evLeaveFirst, evJoinSecond]

/-- An empty database whose checkpoint is already set. -/
def ckptDb : DbState :=
  { players := fun _ => none
    player_events := []
    performance := []
    last_event_ts := some "2024-01-01T09:00:00" }

/-- `PERF_INTERVAL` (line 22): collect performance every 5 seconds. -/
def PERF_INTERVAL : Nat := 5

/-- `PLAYER_INTERVAL` (line 23): check player events every 10 seconds. -/
def PLAYER_INTERVAL : Nat := 10

/-- `CLEANUP_INTERVAL` (line 24): cleanup old data every hour. -/
def CLEANUP_INTERVAL : Nat := 3600

/-- The scheduler's per-task timers `last_perf`, `last_player`,
`last_cleanup` of `main` (lines 395-397). -/
structure LoopState where
  lastPerf : Nat
  lastPlayer : Nat
  lastCleanup : Nat
deriving DecidableEq, Repr

/-- Which task bodies raise an exception on this iteration (an abstract
stand-in for whatever `collect_performance`/`save_performance`,
`check_player_events` or `cleanup_old_data` might throw). -/
structure TaskFaults where
  perfFails : Bool
  playerFails : Bool
  cleanupFails : Bool
deriving DecidableEq, Repr

/-- Outcome of one iteration of the `while running` loop: the timers
afterwards, which task categories ran to completion, and whether the
surrounding `except` clause caught an exception (and logged it). -/
structure IterResult where
  state : LoopState
  perfRan : Bool
  playerRan : Bool
  cleanupRan : Bool
  errorCaught : Bool
deriving DecidableEq, Repr

/-- Third statement of the `try` body (lines 416-419): run cleanup when
due; on an exception control jumps to the `except` clause, so the timer
is not reset. -/
def cleanupStep (now : Nat) (f : TaskFaults) (s : LoopState) (pR iR : Bool) :
    IterResult :=
  if CLEANUP_INTERVAL ≤ now - s.lastCleanup then
    if f.cleanupFails then ⟨s, pR, iR, false, true⟩
    else ⟨{ s with lastCleanup := now }, pR, iR, true, false⟩
  else ⟨s, pR, iR, false, false⟩

/-- Second statement of the `try` body (lines 411-414): run ingestion
when due; on an exception control jumps to the `except` clause and the
cleanup statement of this iteration is skipped. -/
def playerStep (now : Nat) (f : TaskFaults) (s : LoopState) (pR : Bool) :
    IterResult :=
  if PLAYER_INTERVAL ≤ now - s.lastPlayer then
    if f.playerFails then ⟨s, pR, false, false, true⟩
    else cleanupStep now f { s with lastPlayer := now } pR true
  else cleanupStep now f s pR false

/-- One iteration of the scheduler loop (lines 401-425): the three task
statements run in sequence inside a single `try`; an exception in any of
them jumps to the one `except Exception` handler, which logs and lets
the loop continue, leaving the remaining statements of that iteration
unexecuted and the failed task's timer unreset. -/
def loopIter (now : Nat) (f : TaskFaults) (s : LoopState) : IterResult :=
  if PERF_INTERVAL ≤ now - s.lastPerf then
    if f.perfFails then ⟨s, false, false, false, true⟩
    else playerStep now f { s with lastPerf := now } true
  else playerStep now f s false

/-- A word character, `\w` of the patterns. -/
def isWordChar (c : Char) : Bool := c.isAlphanum || c = '_'

/-- Decimal value of a captured digit run (`int(match.group(1))`). -/
def digitsToNat (ds : List Char) : Nat :=
  ds.foldl (fun n c => 10 * n + (c.toNat - ('0').toNat)) 0

/-- Match a literal pattern piece at the front, returning the rest. -/
def dropLit : List Char → List Char → Option (List Char)
  | [], s => some s
  | _ :: _, [] => none
  | c :: cs, d :: ds => if d = c then dropLit cs ds else none

/-- `tps_re` (line 150) tried at one position:
`Setting TPS of world \w+ to (\d+)` — the literal, a maximal non-empty
word-character run (backtracking cannot shorten it, since the next
pattern character is a space), the literal ` to `, then the captured
digit run. -/
def matchTpsAt (s : List Char) : Option Nat :=
  match dropLit ("Setting TPS of world ").toList s with
  | none => none
  | some s1 =>
    let w := s1.takeWhile isWordChar
    if w.isEmpty then none
    else
      match dropLit (" to ").toList (s1.dropWhile isWordChar) with
      | none => none
      | some s2 =>
        let d := s2.takeWhile Char.isDigit
        if d.isEmpty then none else some (digitsToNat d)

/-- `re.search`: try a position matcher at every suffix, leftmost match
first. -/
def searchPos (m : List Char → Option Nat) : List Char → Option Nat
  | [] => m []
  | c :: rest =>
    match m (c :: rest) with
    | some v => some v
    | none => searchPos m rest

/-- The tail of `vr_re`'s second alternative after the non-greedy gap:
the literal `to ` followed by the captured digit run. -/
def vrTailAt (s : List Char) : Option Nat :=
  match dropLit ("to ").toList s with
  | none => none
  | some s2 =>
    let d := s2.takeWhile Char.isDigit
    if d.isEmpty then none else some (digitsToNat d)

/-- Second alternative of `vr_re` (line 151) at one position:
`View radius.*?to (\d+)` — the literal, then the lazy `.*?` takes the
fewest characters for which `to (\d+)` matches, i.e. the earliest
occurrence of `to ` followed by digits in the rest of the line. -/
def matchVrAlt (s : List Char) : Option Nat :=
  match dropLit ("View radius").toList s with
  | none => none
  | some s1 => searchPos vrTailAt s1

/-- `vr_re` (line 151) at one position:
`(?:Initial view radius is|View radius.*?to) (\d+)`, first alternative
first (the two alternatives can never match at the same position, their
first characters differ). -/
def matchVrAt (s : List Char) : Option Nat :=
  match dropLit ("Initial view radius is ").toList s with
  | some s1 =>
    let d := s1.takeWhile Char.isDigit
    if d.isEmpty then matchVrAlt s else some (digitsToNat d)
  | none => matchVrAlt s

/-- `tps_re.search(line)` followed by `int(match.group(1))`. -/
def tpsSearch (line : String) : Option Nat :=
  searchPos matchTpsAt line.toList

/-- `vr_re.search(line)` followed by `int(match.group(1))`. -/
def vrSearch (line : String) : Option Nat :=
  searchPos matchVrAt line.toList

/-- The scan loop of `collect_performance` (lines 152-162) over an
already-reversed line list: fill each still-`None` field from the
current line, break once both fields are set. -/
def scanLoop : Option Nat × Option Nat → List String → Option Nat × Option Nat
  | r, [] => r
  | (tps, vr), line :: rest =>
    let tps1 := match tps with
      | none => tpsSearch line
      | some v => some v
    let vr1 := match vr with
      | none => vrSearch line
      | some v => some v
    if tps1.isSome && vr1.isSome then (tps1, vr1) else scanLoop (tps1, vr1) rest

/-- The metric extraction over the chronological journal lines:
`for line in reversed(output.splitlines())`. -/
def scanMetrics (lines : List String) : Option Nat × Option Nat :=
  scanLoop (none, none) lines.reverse

/-- The `result` dict of `collect_performance` (lines 139-145), all
fields starting as `None`. -/
structure PerfMetrics where
  tps : Option Nat
  cpu_percent : Option ℚ
  ram_mb : Option ℚ
  ram_percent : Option ℚ
  view_radius : Option Nat
deriving DecidableEq, Repr

/-- The `try` block of the resource probe (lines 169-175): the three
result fields are assigned one at a time, in source order; a
`ValueError`/`IndexError` raised by a later conversion is swallowed by
`except: pass`, so the fields assigned before it KEEP their values while
the remaining fields stay untouched.  `p0`, `p1`, `p2` are the outcomes
of `float(parts[0])`, `float(parts[1])`, `int(parts[2])` — `none` when
that conversion raises (unparsable token, or the column is missing from
the `ps` output).  `ram_mb` is `rss_kb / 1024`. -/
def probeAssign (base : PerfMetrics) (p0 p1 : Option ℚ) (p2 : Option ℕ) :
    PerfMetrics :=
  match p0 with
  | none => base
  | some c =>
    let r1 := { base with cpu_percent := some c }
    match p1 with
    | none => r1
    | some m =>
      let r2 := { r1 with ram_percent := some m }
      match p2 with
      | none => r2
      | some rss => { r2 with ram_mb := some ((rss : ℚ) / 1024) }

/-- `collect_performance` (lines 137-177) with its external effects as
parameters: `journalOk` and `lines` are the journalctl exit status and
split output lines; `java_pid` the PID-resolution result (`None` when no
process matched); `psOk` is `rc == 0 and output` for the `ps` call; and
`p0`/`p1`/`p2` the per-column parse outcomes fed to `probeAssign`.  When
no PID was found `ps` is never run; when `ps` failed the try block is
never entered; otherwise the fields are assigned one by one until a
parse failure aborts the block. -/
def collect_performance (journalOk : Bool) (lines : List String)
    (java_pid : Option String) (psOk : Bool) (p0 p1 : Option ℚ) (p2 : Option ℕ) :
    PerfMetrics :=
  let tv := if journalOk then scanMetrics lines else (none, none)
  let base : PerfMetrics :=
    { tps := tv.1
      cpu_percent := none
      ram_mb := none
      ram_percent := none
      view_radius := tv.2 }
  match java_pid with
  | none => base
  | some _ => if psOk then probeAssign base p0 p1 p2 else base

/-- `get_online_player_count` (lines 180-184):
`SELECT COUNT(*) FROM players WHERE online = 1`, over the row list of
the `players` table. -/
def get_online_player_count (rows : List PlayerRecord) : Nat :=
  (rows.filter (fun p => p.online)).length

/-- `save_performance` (lines 187-197): append one `performance` row
copying the five metric fields verbatim (NULLs included) plus the
current online-player count. -/
def save_performance (now : String) (rows : List PlayerRecord) (s : DbState)
    (perf : PerfMetrics) : DbState :=
  { s with
    performance := s.performance ++
      [{ timestamp := now
         tps := perf.tps
         cpu_percent := perf.cpu_percent
         ram_mb := perf.ram_mb
         ram_percent := perf.ram_percent
         view_radius := perf.view_radius
         players_online := get_online_player_count rows }] }

/-- Outcome of one `cleanup_old_data` run: the database afterwards, the
two `rowcount` values, whether the conditional commit-and-log ran, and
whether the `PRAGMA wal_checkpoint(TRUNCATE)` compaction hint ran. -/
structure CleanupResult where
  state : DbState
  deleted_perf : Nat
  deleted_events : Nat
  committed : Bool
  compacted : Bool

/-- A calendar instant of the store's clock, the value SQLite's
`datetime('now', modifier)` renders. -/
structure SqliteTime where
  year : Nat
  month : Nat
  day : Nat
  hour : Nat
  minute : Nat
  second : Nat
deriving DecidableEq, Repr

/-- Zero-padded two-digit decimal field. -/
def pad2 (n : Nat) : String :=
  if n < 10 then "0" ++ toString n else toString n

/-- Zero-padded four-digit decimal field. -/
def pad4 (n : Nat) : String :=
  if n < 10 then "000" ++ toString n
  else if n < 100 then "00" ++ toString n
  else if n < 1000 then "0" ++ toString n
  else toString n

/-- The date part `YYYY-MM-DD` of SQLite's datetime text. -/
def sqliteDateText (t : SqliteTime) : String :=
  pad4 t.year ++ "-" ++ pad2 t.month ++ "-" ++ pad2 t.day

/-- The clock part `HH:MM:SS` of SQLite's datetime text. -/
def sqliteClockText (t : SqliteTime) : String :=
  pad2 t.hour ++ ":" ++ pad2 t.minute ++ ":" ++ pad2 t.second

/-- SQLite's `datetime(...)` text: `YYYY-MM-DD HH:MM:SS` — date and
clock separated by a SPACE, at second precision.  The stored row
timestamps, in contrast, are `T`-separated ISO-8601 strings
(`datetime.isoformat()` for `performance`, journalctl short-iso for
`player_events`). -/
def sqliteDatetimeText (t : SqliteTime) : String :=
  sqliteDateText t ++ (" ") ++ sqliteClockText t

/-- `cleanup_old_data` (lines 294-317): delete `performance` rows with
`timestamp < datetime('now','-24 hours')` and `player_events` rows with
`timestamp < datetime('now','-7 days')`, where `perfCut`/`evCut` are
those two cutoff instants of the store's clock and the comparison is
SQLite's BINARY TEXT collation — byte-wise lexicographic order, here on
the code points of the two strings (identical for the ASCII timestamps
involved), against the SPACE-separated rendering; commit and log only
when either delete removed rows; then run the `PRAGMA
wal_checkpoint(TRUNCATE)` hint unconditionally (line 317 sits outside
the `if`). -/
def cleanup_old_data (perfCut evCut : SqliteTime) (s : DbState) : CleanupResult :=
  let perfCutoff := sqliteDatetimeText perfCut
  let evCutoff := sqliteDatetimeText evCut
  let keptPerf := s.performance.filter
    (fun r => !decide (r.timestamp.toList < perfCutoff.toList))
  let deletedPerf := s.performance.length - keptPerf.length
  let keptEv := s.player_events.filter
    (fun r => !decide (r.timestamp.toList < evCutoff.toList))
  let deletedEv := s.player_events.length - keptEv.length
  { state := { s with performance := keptPerf, player_events := keptEv }
    deleted_perf := deletedPerf
    deleted_events := deletedEv
    committed := decide (0 < deletedPerf) || decide (0 < deletedEv)
    compacted := true }

/-- A `performance` row written 47 hours before the pruning run modelled
below (its `datetime.isoformat()` timestamp). -/
def cexPerfRow : PerfRow :=
  { timestamp := "2024-01-02T00:00:00.000000+00:00"
    tps := none
    cpu_percent := none
    ram_mb := none
    ram_percent := none
    view_radius := none
    players_online := 0 }

/-- A database holding only that stale sample. -/
def cexPerfDb : DbState :=
  { players := fun _ => none
    player_events := []
    performance := [cexPerfRow]
    last_event_ts := none }

/-- `datetime('now','-24 hours')` for a pruning run at
2024-01-03 23:00:00 UTC. -/
def cexCut : SqliteTime := ⟨2024, 1, 2, 23, 0, 0⟩

/-- `datetime('now','-7 days')` for the same pruning run. -/
def cexCutEv : SqliteTime := ⟨2023, 12, 27, 23, 0, 0⟩

/-- C4: merging a Join upserts the `players` row keyed by the event's
`uuid`: when absent, a row is created with `online = true`, `last_login`,
`world` and `name` from the event (and `last_logout = NULL`, playtime 0);
when present, `name`, `last_login`, `world` are overwritten, `online` is
set to `true`, and `last_logout` / playtime are kept, regardless of the
prior row contents. -/
theorem join_merge_upserts (s : DbState) (e : Event) (hk : e.kind = .join) :
    (s.players e.uuid = none →
      (mergeEvent s e).players e.uuid =
        some { name := e.name
               online := true
               last_login := some e.timestamp
               last_logout := none
               world := e.world
               total_playtime_seconds := 0 }) ∧
    (∀ p, s.players e.uuid = some p →
      (mergeEvent s e).players e.uuid =
        some { name := e.name
               online := true
               last_login := some e.timestamp
               last_logout := p.last_logout
               world := e.world
               total_playtime_seconds := p.total_playtime_seconds }) := by
  constructor
  · intro h
    simp [mergeEvent, applyPlayer, hk, h, freshRecord]
  · intro p h
    simp [mergeEvent, applyPlayer, hk, h, joinUpdate]

/-- C4 witness: the spec's worked example, evaluated. -/
theorem join_merge_upserts_witness :
    evJoin1.kind = EventKind.join ∧
    emptyDb.players evJoin1.uuid = none ∧
    (mergeEvent emptyDb evJoin1).players evJoin1.uuid =
      some { name := "Alice"
             online := true
             last_login := some "2024-01-01T10:00:00"
             last_logout := none
             world := some "Overworld"
             total_playtime_seconds := 0 } :=
  ⟨rfl, rfl, (join_merge_upserts emptyDb evJoin1 rfl).1 rfl⟩

/-- C5: a Leave for an unknown `uuid` leaves the whole `players` table
unchanged yet still appends exactly one `player_events` row; a Leave for
a known `uuid` sets that row's `online := false` and
`last_logout := event timestamp`. -/
theorem leave_merge_semantics (s : DbState) (e : Event) (hk : e.kind = .leave) :
    (s.players e.uuid = none →
      (mergeEvent s e).players = s.players ∧
      (mergeEvent s e).player_events = s.player_events ++ [toLogEntry e]) ∧
    (∀ p, s.players e.uuid = some p →
      (mergeEvent s e).players e.uuid =
        some { p with online := false, last_logout := some e.timestamp } ∧
      (mergeEvent s e).player_events = s.player_events ++ [toLogEntry e]) := by
  constructor
  · intro h
    constructor
    · funext u
      by_cases hu : u = e.uuid
      · subst hu
        simp [mergeEvent, applyPlayer, hk, h]
      · simp [mergeEvent, hu]
    · simp [mergeEvent]
  · intro p h
    constructor
    · simp [mergeEvent, applyPlayer, hk, h]
    · simp [mergeEvent]

/-- C5 witness: an unknown-player Leave on the empty database. -/
theorem leave_merge_semantics_witness :
    evLeave1.kind = EventKind.leave ∧
    emptyDb.players evLeave1.uuid = none ∧
    (mergeEvent emptyDb evLeave1).players = emptyDb.players ∧
    (mergeEvent emptyDb evLeave1).player_events =
      emptyDb.player_events ++ [toLogEntry evLeave1] :=
  ⟨rfl, rfl,
    ((leave_merge_semantics emptyDb evLeave1 rfl).1 rfl).1,
    ((leave_merge_semantics emptyDb evLeave1 rfl).1 rfl).2⟩

/-- C9: merging a Leave for an existing row changes only `online` and
`last_logout`; `name`, `last_login`, `world` (so `current_world` stays
set while the player is offline) and playtime are untouched; and merging
any event leaves every row of a different `uuid` unchanged. -/
theorem leave_frame_property (s : DbState) (e : Event) (p : PlayerRecord)
    (hk : e.kind = .leave) (hp : s.players e.uuid = some p) :
    (mergeEvent s e).players e.uuid =
      some { name := p.name
             online := false
             last_login := p.last_login
             last_logout := some e.timestamp
             world := p.world
             total_playtime_seconds := p.total_playtime_seconds } ∧
    (∀ (e2 : Event) (u : String), u ≠ e2.uuid →
      (mergeEvent s e2).players u = s.players u) := by
  constructor
  · simp [mergeEvent, applyPlayer, hk, hp]
  · intro e2 u hu
    simp [mergeEvent, hu]

/-- C9 witness: a Leave applied to the one-row database. -/
theorem leave_frame_property_witness :
    evLeave1.kind = EventKind.leave ∧
    oneDb.players evLeave1.uuid =
      some { name := "Alice"
             online := true
             last_login := some "2024-01-01T10:00:00"
             last_logout := none
             world := some "Overworld"
             total_playtime_seconds := 0 } ∧
    (mergeEvent oneDb evLeave1).players evLeave1.uuid =
      some { name := "Alice"
             online := false
             last_login := some "2024-01-01T10:00:00"
             last_logout := some "2024-01-01T11:00:00"
             world := some "Overworld"
             total_playtime_seconds := 0 } ∧
    (mergeEvent oneDb evJoin1).players "other-player" = oneDb.players "other-player" :=
  ⟨rfl, by decide,
    (leave_frame_property oneDb evLeave1
      { name := "Alice"
        online := true
        last_login := some "2024-01-01T10:00:00"
        last_logout := none
        world := some "Overworld"
        total_playtime_seconds := 0 } rfl (by decide)).1,
    (leave_frame_property oneDb evLeave1
      { name := "Alice"
        online := true
        last_login := some "2024-01-01T10:00:00"
        last_logout := none
        world := some "Overworld"
        total_playtime_seconds := 0 } rfl (by decide)).2 evJoin1 "other-player"
      (by decide)⟩

theorem applyPlayer_some (p : PlayerRecord) (e : Event) :
    applyPlayer (some p) e = some (applyRecord p e) := by
  cases hk : e.kind <;> simp [applyPlayer, applyRecord, hk]

theorem applyPlayer_idem (r : Option PlayerRecord) (e : Event) :
    applyPlayer (applyPlayer r e) e = applyPlayer r e := by
  cases hk : e.kind <;> cases r <;>
    simp [applyPlayer, hk, freshRecord, joinUpdate]

theorem foldl_mergeEvent_players (b : List Event) (s : DbState) (u : String) :
    (b.foldl mergeEvent s).players u
      = (b.filter (fun e => e.uuid == u)).foldl applyPlayer (s.players u) := by
  induction b generalizing s with
  | nil => rfl
  | cons e t ih =>
    simp only [List.foldl_cons]
    rw [ih]
    by_cases hu : e.uuid = u
    · subst hu
      rw [List.filter_cons_of_pos (by simp)]
      simp [mergeEvent]
    · rw [List.filter_cons_of_neg (by simp [hu])]
      have hpl : (mergeEvent s e).players u = s.players u := by
        show (if u = e.uuid then applyPlayer (s.players e.uuid) e else s.players u)
            = s.players u
        rw [if_neg (fun hh => hu hh.symm)]
      rw [hpl]

theorem foldl_applyPlayer_some (l : List Event) (p : PlayerRecord) :
    l.foldl applyPlayer (some p) = some (nfRecord p l) := by
  induction l using List.reverseRecOn with
  | nil =>
    simp [nfRecord, lastJoin, lastLeave]
  | append_singleton l e ih =>
    rw [List.foldl_append, ih, List.foldl_cons, List.foldl_nil, applyPlayer_some]
    cases hk : e.kind <;>
      simp [applyRecord, joinUpdate, nfRecord, lastJoin, lastLeave, hk,
        List.filter_append, List.getLast?_concat]

theorem nfRecord_idem (p : PlayerRecord) (l : List Event) :
    nfRecord (nfRecord p l) l = nfRecord p l := by
  cases hj : lastJoin l <;> cases hl : lastLeave l <;> cases hg : l.getLast? <;>
    simp [nfRecord, hj, hl, hg]

theorem nfRecord_joinUpdate (e : Event) (p : PlayerRecord) (l : List Event) :
    nfRecord (joinUpdate (nfRecord p l) e) l = nfRecord (joinUpdate p e) l := by
  cases hj : lastJoin l <;> cases hl : lastLeave l <;> cases hg : l.getLast? <;>
    simp [nfRecord, joinUpdate, hj, hl, hg]

theorem foldl_applyPlayer_idem (l : List Event) (r : Option PlayerRecord)
    (hc : playerCovered r l = true) :
    l.foldl applyPlayer (l.foldl applyPlayer r) = l.foldl applyPlayer r := by
  cases r with
  | some p =>
    rw [foldl_applyPlayer_some, foldl_applyPlayer_some, nfRecord_idem]
  | none =>
    cases l with
    | nil => rfl
    | cons e t =>
      simp only [playerCovered, Bool.and_eq_true] at hc
      have hk : e.kind = EventKind.join := by
        cases hke : e.kind
        · rfl
        · exfalso
          rw [hke] at hc
          simp at hc
      have h1 : applyPlayer none e = some (freshRecord e) := by
        simp [applyPlayer, hk]
      have hfresh : joinUpdate (freshRecord e) e = freshRecord e := rfl
      rw [List.foldl_cons, List.foldl_cons, h1, foldl_applyPlayer_some,
        applyPlayer_some]
      have hrec : applyRecord (nfRecord (freshRecord e) t) e
          = joinUpdate (nfRecord (freshRecord e) t) e := by
        simp [applyRecord, hk]
      rw [hrec, foldl_applyPlayer_some, nfRecord_joinUpdate, hfresh]

theorem leavesCovered_filter (b : List Event) (s : DbState) (u : String)
    (h : leavesCovered s b = true) :
    playerCovered (s.players u) (b.filter (fun e => e.uuid == u)) = true := by
  induction b generalizing s with
  | nil => rfl
  | cons e t ih =>
    simp only [leavesCovered, Bool.and_eq_true] at h
    obtain ⟨h1, h2⟩ := h
    by_cases hu : e.uuid = u
    · subst hu
      rw [List.filter_cons_of_pos (by simp)]
      simp only [playerCovered, Bool.and_eq_true]
      refine ⟨h1, ?_⟩
      have := ih (mergeEvent s e) h2
      simpa [mergeEvent] using this
    · rw [List.filter_cons_of_neg (by simp [hu])]
      have := ih (mergeEvent s e) h2
      have hpl : (mergeEvent s e).players u = s.players u := by
        show (if u = e.uuid then applyPlayer (s.players e.uuid) e else s.players u)
            = s.players u
        rw [if_neg (fun hh => hu hh.symm)]
      rwa [hpl] at this

theorem check_player_events_players (s : DbState) (b : List Event) :
    (check_player_events true s b).players = (b.foldl mergeEvent s).players := by
  cases b with
  | nil => rfl
  | cons e t => simp [check_player_events]

/-- C1 (amended): merging an identical batch twice yields the same
`players` table as merging it once, provided every Leave of the batch is
applied at a moment its player's row exists (`leavesCovered`); and for a
single-event batch this holds unconditionally: an identical Join applied
twice, and an identical Leave applied twice, leave the player table
unchanged after the first application.  Without the proviso it fails
(see the counterexample). -/
theorem merge_idempotence_amended :
    (∀ (s : DbState) (b : List Event), leavesCovered s b = true →
      (check_player_events true (check_player_events true s b) b).players
        = (check_player_events true s b).players) ∧
    (∀ (s : DbState) (e : Event),
      (check_player_events true (check_player_events true s [e]) [e]).players
        = (check_player_events true s [e]).players) := by
  constructor
  · intro s b hc
    rw [check_player_events_players, check_player_events_players]
    funext u
    rw [foldl_mergeEvent_players, foldl_mergeEvent_players,
      check_player_events_players, foldl_mergeEvent_players]
    exact foldl_applyPlayer_idem _ _ (leavesCovered_filter b s u hc)
  · intro s e
    rw [check_player_events_players, check_player_events_players]
    funext u
    rw [foldl_mergeEvent_players, foldl_mergeEvent_players,
      check_player_events_players, foldl_mergeEvent_players]
    by_cases hu : e.uuid = u
    · rw [List.filter_cons_of_pos (by simp [hu])]
      simp [applyPlayer_idem]
    · rw [List.filter_cons_of_neg (by simp [hu])]
      simp

/-- C1 counterexample: for the batch [Leave p, Join p] starting from a
state with no row for p, merging the identical batch twice does not
yield the same `players` table as merging it once (the second merge sets
`last_logout`, which the first left NULL). -/
theorem merge_idempotence_counterexample :
    (check_player_events true (check_player_events true emptyDb cexBatch) cexBatch).players "p-1"
      ≠ (check_player_events true emptyDb cexBatch).players "p-1" := by
  decide

/-- C1 witness: a covered batch (Join then Leave of the same player) for
which the amended idempotence theorem applies. -/
theorem merge_idempotence_amended_witness :
    leavesCovered emptyDb [evJoin1, evLeave1] = true ∧
    (check_player_events true (check_player_events true emptyDb [evJoin1, evLeave1])
        [evJoin1, evLeave1]).players
      = (check_player_events true emptyDb [evJoin1, evLeave1]).players :=
  ⟨by decide, merge_idempotence_amended.1 emptyDb [evJoin1, evLeave1] (by decide)⟩

theorem foldl_mergeEvent_log (b : List Event) (s : DbState) :
    (b.foldl mergeEvent s).player_events = s.player_events ++ b.map toLogEntry := by
  induction b generalizing s with
  | nil => simp
  | cons e t ih =>
    simp only [List.foldl_cons, List.map_cons]
    rw [ih]
    show (s.player_events ++ [toLogEntry e]) ++ List.map toLogEntry t
        = s.player_events ++ toLogEntry e :: List.map toLogEntry t
    simp

theorem check_player_events_log (s : DbState) (b : List Event) :
    (check_player_events true s b).player_events
      = s.player_events ++ b.map toLogEntry := by
  cases b with
  | nil => simp [check_player_events]
  | cons e t =>
    show ((e :: t).foldl mergeEvent s).player_events
        = s.player_events ++ (e :: t).map toLogEntry
    exact foldl_mergeEvent_log (e :: t) s

/-- C2: one ingestion tick leaves the stored checkpoint (`last_event_ts`)
untouched when the extracted batch is empty; sets it to the timestamp of
the last event in extraction (source-line) order when the batch is
non-empty; and never moves it backwards across ticks, given the log-query
window contract that every event of a tick has a timestamp at or after
the current checkpoint. -/
theorem checkpoint_tick (s : DbState) (events : List Event) :
    (events = [] →
      (check_player_events true s events).last_event_ts = s.last_event_ts) ∧
    (∀ e, events.getLast? = some e →
      (check_player_events true s events).last_event_ts = some e.timestamp) ∧
    (∀ old ts, s.last_event_ts = some old →
      (∀ ev ∈ events, old ≤ ev.timestamp) →
      (check_player_events true s events).last_event_ts = some ts →
      old ≤ ts) := by
  refine ⟨?_, ?_, ?_⟩
  · intro h
    subst h
    rfl
  · intro e he
    have hne : events ≠ [] := by
      intro h
      subst h
      simp at he
    have hemp : events.isEmpty = false := by
      cases events with
      | nil => exact absurd rfl hne
      | cons _ _ => rfl
    simp [check_player_events, hemp, he]
  · intro old ts hold hall hts
    cases hev : events with
    | nil =>
      subst hev
      have hs : s.last_event_ts = some ts := hts
      rw [hold] at hs
      injection hs with h
      exact h ▸ le_refl old
    | cons e t =>
      subst hev
      have hne : (e :: t) ≠ [] := List.cons_ne_nil e t
      have hgl : (e :: t).getLast? = some ((e :: t).getLast hne) :=
        List.getLast?_eq_getLast_of_ne_nil hne
      have h2 : (check_player_events true s (e :: t)).last_event_ts
          = some ((e :: t).getLast hne).timestamp := by
        simp [check_player_events, hgl]
      rw [h2] at hts
      injection hts with h
      exact h ▸ hall _ (List.getLast_mem hne)

/-- C2 witness: an empty tick leaves the checkpoint alone; a one-event
tick whose event is inside the window advances it to that event's
timestamp, which is not before the old checkpoint. -/
theorem checkpoint_tick_witness :
    (check_player_events true ckptDb []).last_event_ts = ckptDb.last_event_ts ∧
    (check_player_events true ckptDb [evJoin1]).last_event_ts
      = some "2024-01-01T10:00:00" ∧
    ("2024-01-01T09:00:00" : String) ≤ "2024-01-01T10:00:00" :=
  ⟨(checkpoint_tick ckptDb []).1 rfl,
    (checkpoint_tick ckptDb [evJoin1]).2.1 evJoin1 rfl,
    (checkpoint_tick ckptDb [evJoin1]).2.2 "2024-01-01T09:00:00" "2024-01-01T10:00:00"
      rfl
      (fun ev hev => by
        simp only [List.mem_singleton] at hev
        subst hev
        rw [String.le_iff_toList_le]
        decide)
      ((checkpoint_tick ckptDb [evJoin1]).2.1 evJoin1 rfl)⟩

/-- C10: the event log is not idempotent under replay: merging the same
batch twice appends one `player_events` row per event per merge, so
after the duplicate merge the log holds the batch's entries twice, and
each entry of the batch occurs at least twice. -/
theorem event_log_not_idempotent (s : DbState) (b : List Event) :
    (check_player_events true (check_player_events true s b) b).player_events
      = s.player_events ++ b.map toLogEntry ++ b.map toLogEntry ∧
    (∀ e ∈ b,
      2 ≤ (check_player_events true (check_player_events true s b) b).player_events.count
            (toLogEntry e)) := by
  have h1 : (check_player_events true (check_player_events true s b) b).player_events
      = s.player_events ++ b.map toLogEntry ++ b.map toLogEntry := by
    rw [check_player_events_log, check_player_events_log]
  refine ⟨h1, ?_⟩
  intro e he
  rw [h1]
  have hmem : toLogEntry e ∈ b.map toLogEntry := List.mem_map_of_mem toLogEntry he
  have hc : 0 < (b.map toLogEntry).count (toLogEntry e) :=
    List.count_pos_iff.mpr hmem
  rw [List.count_append, List.count_append]
  omega

/-- C10 witness: replaying a one-Join batch leaves two copies of the
join's log entry. -/
theorem event_log_not_idempotent_witness :
    evJoin1 ∈ [evJoin1] ∧
    2 ≤ (check_player_events true (check_player_events true emptyDb [evJoin1])
          [evJoin1]).player_events.count (toLogEntry evJoin1) :=
  ⟨by decide, (event_log_not_idempotent emptyDb [evJoin1]).2 evJoin1 (by decide)⟩

/-- C3 counterexample: with every task due and metric sampling raising,
the exception is caught, but ingestion and cleanup do not run in that
same iteration — refuting per-iteration task isolation as claimed. -/
theorem task_isolation_counterexample :
    PLAYER_INTERVAL ≤ 3600 - (0 : Nat) ∧
    CLEANUP_INTERVAL ≤ 3600 - (0 : Nat) ∧
    (loopIter 3600 ⟨true, false, false⟩ ⟨0, 0, 0⟩).errorCaught = true ∧
    (loopIter 3600 ⟨true, false, false⟩ ⟨0, 0, 0⟩).playerRan = false ∧
    (loopIter 3600 ⟨true, false, false⟩ ⟨0, 0, 0⟩).cleanupRan = false := by
  decide

/-- C3 (amended): an exception in metric sampling is caught (the
iteration returns normally, the loop continues) but aborts the remainder
of that iteration, so a due ingestion and a due cleanup are skipped for
that iteration; because no timer was reset, every due task runs to
completion, with no exception escaping, on the next fault-free iteration. -/
theorem task_isolation_amended (now : Nat) (f : TaskFaults) (s : LoopState)
    (hdue : PERF_INTERVAL ≤ now - s.lastPerf) (hfail : f.perfFails = true) :
    loopIter now f s = ⟨s, false, false, false, true⟩ ∧
    (∀ now2,
      PERF_INTERVAL ≤ now2 - s.lastPerf →
      PLAYER_INTERVAL ≤ now2 - s.lastPlayer →
      CLEANUP_INTERVAL ≤ now2 - s.lastCleanup →
      (loopIter now2 ⟨false, false, false⟩ (loopIter now f s).state).perfRan = true ∧
      (loopIter now2 ⟨false, false, false⟩ (loopIter now f s).state).playerRan = true ∧
      (loopIter now2 ⟨false, false, false⟩ (loopIter now f s).state).cleanupRan = true ∧
      (loopIter now2 ⟨false, false, false⟩ (loopIter now f s).state).errorCaught = false) := by
  have habort : loopIter now f s = ⟨s, false, false, false, true⟩ := by
    simp [loopIter, hdue, hfail]
  refine ⟨habort, ?_⟩
  intro now2 h1 h2 h3
  rw [habort]
  simp [loopIter, playerStep, cleanupStep, h1, h2, h3]

/-- C3 witness: a perf failure at time 10 aborts the iteration; at time
3600 with no faults, all three due tasks run. -/
theorem task_isolation_amended_witness :
    PERF_INTERVAL ≤ 10 - (0 : Nat) ∧
    loopIter 10 ⟨true, false, false⟩ ⟨0, 0, 0⟩
      = ⟨⟨0, 0, 0⟩, false, false, false, true⟩ ∧
    (loopIter 3600 ⟨false, false, false⟩
        (loopIter 10 ⟨true, false, false⟩ ⟨0, 0, 0⟩).state).playerRan = true ∧
    (loopIter 3600 ⟨false, false, false⟩
        (loopIter 10 ⟨true, false, false⟩ ⟨0, 0, 0⟩).state).cleanupRan = true :=
  ⟨by decide,
    (task_isolation_amended 10 ⟨true, false, false⟩ ⟨0, 0, 0⟩ (by decide) rfl).1,
    ((task_isolation_amended 10 ⟨true, false, false⟩ ⟨0, 0, 0⟩ (by decide) rfl).2
      3600 (by decide) (by decide) (by decide)).2.1,
    ((task_isolation_amended 10 ⟨true, false, false⟩ ⟨0, 0, 0⟩ (by decide) rfl).2
      3600 (by decide) (by decide) (by decide)).2.2.1⟩

theorem scanLoop_eq (ls : List String) (tps vr : Option Nat) :
    scanLoop (tps, vr) ls
      = (tps.or (ls.filterMap tpsSearch).head?,
         vr.or (ls.filterMap vrSearch).head?) := by
  induction ls generalizing tps vr with
  | nil => simp [scanLoop]
  | cons line rest ih =>
    cases tps with
    | some a =>
      cases vr with
      | some b => simp [scanLoop]
      | none =>
        cases hv : vrSearch line with
        | some b => simp [scanLoop, hv, List.filterMap_cons]
        | none => simp [scanLoop, hv, ih, List.filterMap_cons]
    | none =>
      cases ht : tpsSearch line with
      | some a =>
        cases vr with
        | some b => simp [scanLoop, ht, List.filterMap_cons]
        | none =>
          cases hv : vrSearch line with
          | some b => simp [scanLoop, ht, hv, List.filterMap_cons]
          | none => simp [scanLoop, ht, hv, ih, List.filterMap_cons]
      | none =>
        cases vr with
        | some b =>
          cases hv : vrSearch line with
          | some _ => simp [scanLoop, ht, hv, ih, List.filterMap_cons]
          | none => simp [scanLoop, ht, hv, ih, List.filterMap_cons]
        | none =>
          cases hv : vrSearch line with
          | some b => simp [scanLoop, ht, hv, ih, List.filterMap_cons]
          | none => simp [scanLoop, ht, hv, ih, List.filterMap_cons]

/-- C7: the metric extraction scans lines newest-to-oldest; `tps` is the
value captured from the first (newest) line matching the TPS pattern and
`view_radius` the value from the first (newest) line matching either
view-radius alternative, each field independently (the early break fires
only when both are already set, so it changes nothing); and on the
spec's example — an older line ending `to 18` and a newer line ending
`to 20` — the extracted tps is 20. -/
theorem reverse_scan_extraction :
    (∀ lines : List String,
      scanMetrics lines
        = ((lines.reverse.filterMap tpsSearch).head?,
           (lines.reverse.filterMap vrSearch).head?)) ∧
    scanMetrics
      [("2024-01-01T10:00:00 hytale: Setting TPS of world orbis to 18"),
       ("2024-01-01T10:05:00 hytale: Setting TPS of world orbis to 20")]
      = (some 20, none) := by
  constructor
  · intro lines
    rw [scanMetrics, scanLoop_eq]
    simp
  · decide

/-- C6 (amended): when no process matched, the `ps` call failed, or
already the first conversion (`float(parts[0])`) raised, all three of
`cpu_percent`, `ram_percent`, `ram_mb` are `None`; when a LATER
conversion raises, the fields assigned before it keep their parsed
values while every field from the failing conversion on stays `None` —
a missing value is always `None`, never zero or any other default — and
`save_performance` stores the five metric fields verbatim (NULLs
included) in the inserted row. -/
theorem probe_failure_nulls (journalOk : Bool) (lines : List String)
    (java_pid : Option String) (psOk : Bool) (p0 p1 : Option ℚ) (p2 : Option ℕ)
    (now : String) (rows : List PlayerRecord) (s : DbState) :
    ((java_pid = none ∨ psOk = false ∨ p0 = none) →
      (collect_performance journalOk lines java_pid psOk p0 p1 p2).cpu_percent = none ∧
      (collect_performance journalOk lines java_pid psOk p0 p1 p2).ram_percent = none ∧
      (collect_performance journalOk lines java_pid psOk p0 p1 p2).ram_mb = none) ∧
    (p1 = none →
      (collect_performance journalOk lines java_pid psOk p0 p1 p2).ram_percent = none ∧
      (collect_performance journalOk lines java_pid psOk p0 p1 p2).ram_mb = none) ∧
    (p2 = none →
      (collect_performance journalOk lines java_pid psOk p0 p1 p2).ram_mb = none) ∧
    (∀ pid c, java_pid = some pid → psOk = true → p0 = some c →
      (collect_performance journalOk lines java_pid psOk p0 p1 p2).cpu_percent = some c) ∧
    (save_performance now rows s
        (collect_performance journalOk lines java_pid psOk p0 p1 p2)).performance
      = s.performance ++
        [{ timestamp := now
           tps := (collect_performance journalOk lines java_pid psOk p0 p1 p2).tps
           cpu_percent := (collect_performance journalOk lines java_pid psOk p0 p1 p2).cpu_percent
           ram_mb := (collect_performance journalOk lines java_pid psOk p0 p1 p2).ram_mb
           ram_percent := (collect_performance journalOk lines java_pid psOk p0 p1 p2).ram_percent
           view_radius := (collect_performance journalOk lines java_pid psOk p0 p1 p2).view_radius
           players_online := get_online_player_count rows }] := by
  refine ⟨?_, ?_, ?_, ?_, rfl⟩
  · intro h
    rcases h with h | h | h
    · subst h
      simp [collect_performance]
    · subst h
      cases java_pid <;> simp [collect_performance]
    · subst h
      cases java_pid <;> cases psOk <;> simp [collect_performance, probeAssign]
  · intro h
    subst h
    cases java_pid <;> cases psOk <;> cases p0 <;>
      simp [collect_performance, probeAssign]
  · intro h
    subst h
    cases java_pid <;> cases psOk <;> cases p0 <;> cases p1 <;>
      simp [collect_performance, probeAssign]
  · intro pid c hpid hps hp0
    subst hpid
    subst hps
    subst hp0
    cases p1 <;> cases p2 <;> simp [collect_performance, probeAssign]

/-- C6 counterexample: `ps` returns a single column, so
`float(parts[0])` succeeds and `float(parts[1])` raises `IndexError`;
the `except: pass` leaves `cpu_percent` at its parsed value — the probe
failed on this tick, yet `cpu_percent` is not null, refuting the
all-fields-null claim. -/
theorem probe_failure_nulls_counterexample :
    (collect_performance true [] (some ("1234")) true (some 5) none none).cpu_percent
      = some 5 ∧
    (collect_performance true [] (some ("1234")) true (some 5) none none).cpu_percent
      ≠ none ∧
    (collect_performance true [] (some ("1234")) true (some 5) none none).ram_percent
      = none ∧
    (collect_performance true [] (some ("1234")) true (some 5) none none).ram_mb
      = none := by
  refine ⟨rfl, ?_, rfl, rfl⟩
  intro h
  have h5 : (some (5 : ℚ)) = none := h
  exact Option.noConfusion h5

/-- C6 witness: a no-process tick has all three fields null, a
later-column parse failure keeps the earlier field and nulls the rest. -/
theorem probe_failure_nulls_witness :
    ((none : Option String) = none ∨ false = false ∨ (none : Option ℚ) = none) ∧
    (collect_performance true [] none false none none none).cpu_percent = none ∧
    (collect_performance true [] none false none none none).ram_percent = none ∧
    (collect_performance true [] none false none none none).ram_mb = none ∧
    (collect_performance true [] (some ("1234")) true (some 5) none none).ram_percent
      = none ∧
    (collect_performance true [] (some ("1234")) true (some 5) none none).ram_mb
      = none ∧
    (collect_performance true [] (some ("1234")) true (some 5) none none).cpu_percent
      = some 5 :=
  ⟨Or.inl rfl,
    ((probe_failure_nulls true [] none false none none none
        ("2024-01-01T10:00:05") [] emptyDb).1 (Or.inl rfl)).1,
    ((probe_failure_nulls true [] none false none none none
        ("2024-01-01T10:00:05") [] emptyDb).1 (Or.inl rfl)).2.1,
    ((probe_failure_nulls true [] none false none none none
        ("2024-01-01T10:00:05") [] emptyDb).1 (Or.inl rfl)).2.2,
    ((probe_failure_nulls true [] (some ("1234")) true (some 5) none none
        ("2024-01-01T10:00:05") [] emptyDb).2.1 rfl).1,
    ((probe_failure_nulls true [] (some ("1234")) true (some 5) none none
        ("2024-01-01T10:00:05") [] emptyDb).2.1 rfl).2,
    (probe_failure_nulls true [] (some ("1234")) true (some 5) none none
        ("2024-01-01T10:00:05") [] emptyDb).2.2.2.1 ("1234") 5 rfl rfl rfl⟩

theorem string_toList_append (s t : String) :
    (s ++ t).toList = s.toList ++ t.toList :=
  String.data_append s t

theorem list_lt_append_iff (l xs ys : List Char) :
    l ++ xs < l ++ ys ↔ xs < ys := by
  induction l with
  | nil => exact Iff.rfl
  | cons c t ih =>
    constructor
    · intro h
      cases h with
      | cons htail => exact ih.mp htail
      | rel hcc => exact absurd hcc (lt_irrefl c)
    · intro h
      exact List.Lex.cons (ih.mpr h)

theorem tSep_not_lt_spaceSep (d rest tp : String) :
    ¬ (d ++ ("T") ++ rest < d ++ (" ") ++ tp) := by
  rw [String.lt_iff_toList_lt, string_toList_append, string_toList_append,
    string_toList_append, string_toList_append]
  have hT : ("T").toList = ['T'] := rfl
  have hS : (" ").toList = [' '] := rfl
  rw [hT, hS, List.append_assoc, List.append_assoc, List.singleton_append,
    List.singleton_append]
  intro h
  have h2 := (list_lt_append_iff d.toList _ _).mp h
  cases h2 with
  | rel hr => exact absurd hr (by decide)

/-- C8 (amended): one pruning run deletes exactly the rows whose
timestamp string is TEXT-less-than the SQLite rendering of the cutoff
instant (`datetime('now','-24 hours')` for `performance`,
`datetime('now','-7 days')` for `player_events`), as two independent
deletes; because that rendering separates date and clock with a SPACE
while stored timestamps use `T`, and `T` sorts after the space, every
row whose `T`-separated timestamp carries the cutoff's own calendar
date is retained no matter how far its time of day lies before the
cutoff — deletion acts at whole-date granularity, so rows up to a day
older than the horizon survive; the commit-and-log step runs exactly
when either delete removed rows; and the storage-compaction hint
(`PRAGMA wal_checkpoint(TRUNCATE)`) runs on every pruning run, whether
or not anything was deleted. -/
theorem retention_pruning (perfCut evCut : SqliteTime) (s : DbState) :
    (∀ r : PerfRow,
      r ∈ (cleanup_old_data perfCut evCut s).state.performance ↔
        r ∈ s.performance ∧ ¬(r.timestamp < sqliteDatetimeText perfCut)) ∧
    (∀ r : EventLogEntry,
      r ∈ (cleanup_old_data perfCut evCut s).state.player_events ↔
        r ∈ s.player_events ∧ ¬(r.timestamp < sqliteDatetimeText evCut)) ∧
    (∀ r : PerfRow, r ∈ s.performance →
      (∃ rest, r.timestamp = sqliteDateText perfCut ++ ("T") ++ rest) →
      r ∈ (cleanup_old_data perfCut evCut s).state.performance) ∧
    (∀ r : EventLogEntry, r ∈ s.player_events →
      (∃ rest, r.timestamp = sqliteDateText evCut ++ ("T") ++ rest) →
      r ∈ (cleanup_old_data perfCut evCut s).state.player_events) ∧
    (cleanup_old_data perfCut evCut s).committed
      = (decide (0 < (cleanup_old_data perfCut evCut s).deleted_perf)
          || decide (0 < (cleanup_old_data perfCut evCut s).deleted_events)) ∧
    (cleanup_old_data perfCut evCut s).compacted = true := by
  have hperf : ∀ r : PerfRow,
      r ∈ (cleanup_old_data perfCut evCut s).state.performance ↔
        r ∈ s.performance ∧ ¬(r.timestamp < sqliteDatetimeText perfCut) := by
    intro r
    rw [String.lt_iff_toList_lt]
    simp [cleanup_old_data, List.mem_filter]
  have hev : ∀ r : EventLogEntry,
      r ∈ (cleanup_old_data perfCut evCut s).state.player_events ↔
        r ∈ s.player_events ∧ ¬(r.timestamp < sqliteDatetimeText evCut) := by
    intro r
    rw [String.lt_iff_toList_lt]
    simp [cleanup_old_data, List.mem_filter]
  refine ⟨hperf, hev, ?_, ?_, rfl, rfl⟩
  · intro r hr hdate
    obtain ⟨rest, hrest⟩ := hdate
    refine (hperf r).mpr ⟨hr, ?_⟩
    rw [hrest, sqliteDatetimeText]
    exact tSep_not_lt_spaceSep (sqliteDateText perfCut) rest (sqliteClockText perfCut)
  · intro r hr hdate
    obtain ⟨rest, hrest⟩ := hdate
    refine (hev r).mpr ⟨hr, ?_⟩
    rw [hrest, sqliteDatetimeText]
    exact tSep_not_lt_spaceSep (sqliteDateText evCut) rest (sqliteClockText evCut)

/-- C8 counterexample: at a pruning run of 2024-01-03 23:00:00 UTC the
24-hour cutoff is `2024-01-02 23:00:00`; a sample stamped
`2024-01-02T00:00:00.000000+00:00` is 47 hours old — older than the
horizon, as the same-format comparison in the first conjunct shows —
yet it survives the run (the `T` after its date sorts above the
cutoff's space), nothing is deleted, and the compaction hint still
runs, refuting both the exact-horizon deletion and the
skipped-when-nothing-deleted clauses. -/
theorem retention_pruning_counterexample :
    ("2024-01-02T00:00:00.000000+00:00" : String) < "2024-01-02T23:00:00" ∧
    sqliteDatetimeText cexCut = "2024-01-02 23:00:00" ∧
    (cleanup_old_data cexCut cexCutEv cexPerfDb).state.performance = [cexPerfRow] ∧
    (cleanup_old_data cexCut cexCutEv cexPerfDb).deleted_perf = 0 ∧
    (cleanup_old_data cexCut cexCutEv cexPerfDb).deleted_events = 0 ∧
    (cleanup_old_data cexCut cexCutEv cexPerfDb).committed = false ∧
    (cleanup_old_data cexCut cexCutEv cexPerfDb).compacted = true := by
  refine ⟨?_, ?_, ?_, ?_, ?_, ?_, ?_⟩
  · rw [String.lt_iff_toList_lt]
    decide
  · decide
  · decide
  · decide
  · decide
  · decide
  · rfl

/-- C8 witness: the stale same-date sample of the counterexample run is
retained by the date-granularity conjunct of the amended theorem. -/
theorem retention_pruning_witness :
    cexPerfRow ∈ cexPerfDb.performance ∧
    cexPerfRow.timestamp
      = sqliteDateText cexCut ++ ("T") ++ ("00:00:00.000000+00:00") ∧
    cexPerfRow ∈ (cleanup_old_data cexCut cexCutEv cexPerfDb).state.performance ∧
    (cleanup_old_data cexCut cexCutEv cexPerfDb).compacted = true :=
  ⟨by decide, by decide,
    (retention_pruning cexCut cexCutEv cexPerfDb).2.2.1 cexPerfRow (by decide)
      ⟨("00:00:00.000000+00:00"), by decide⟩,
    (retention_pruning cexCut cexCutEv cexPerfDb).2.2.2.2.2⟩

end HytaleWorker
